import Mathlib

/-
Shallow embedding of the dr-indigo workflow routing layer.

Source files embedded here:
  src/server/workflow.py               (fan-out workflow, edge predicate, final router)
  src/server/api.py                    (three-branch workflow, edge conditions)
  src/server/main.py                   (same edge-condition lambdas as api.py)
  src/server/agents/medical_triage_agent.py   (two-field MedicalTriageResult schema)
  src/server/medical_triage_agent.py          (three-field MedicalTriageResult schema)
  src/server/workflow_agent_adapter.py (WorkflowAgentAdapter.run_stream, _build_updates)

Modelling notes.
Pydantic `model_validate_json` is modelled as: parse the text as JSON, require
the root to be an object, require each declared field to be present with the
matching JSON type (bool fields need a JSON bool, string fields a JSON string),
ignore unknown extra fields, and on duplicate keys keep the last occurrence
(as Python JSON decoding does).  Lax-mode numeric and string coercions to bool
that pydantic performs at the library boundary are not modelled; no claim
depends on them.  JSON numbers are recognised syntactically and stored as
their literal text, which is all the schemas here need.  Python `str.strip`
is modelled by `pyStrip`, which removes leading and trailing ASCII
whitespace.
-/

/-- JSON values, as produced by parsing a response text.  Numbers keep their
literal spelling since no schema field here is numeric. -/
inductive Json where
  | null : Json
  | bool (b : Bool) : Json
  | str (s : String) : Json
  | num (lit : String) : Json
  | arr (elems : List Json) : Json
  | obj (fields : List (String × Json)) : Json
deriving Repr

/-- Skip JSON whitespace (space, tab, line feed, carriage return). -/
def skipWs : List Char → List Char
  | [] => []
  | c :: rest =>
      if c = ' ' ∨ c = '\t' ∨ c = '\n' ∨ c = '\r' then skipWs rest else c :: rest

/-- Value of one hexadecimal digit. -/
def hexVal (c : Char) : Option Nat :=
  if '0' ≤ c ∧ c ≤ '9' then some (c.toNat - '0'.toNat)
  else if 'a' ≤ c ∧ c ≤ 'f' then some (c.toNat - 'a'.toNat + 10)
  else if 'A' ≤ c ∧ c ≤ 'F' then some (c.toNat - 'A'.toNat + 10)
  else none

/-- Translation of a single-character JSON escape. -/
def escChar (c : Char) : Option Char :=
  if c = '"' then some '"'
  else if c = '\\' then some '\\'
  else if c = '/' then some '/'
  else if c = 'b' then some '\x08'
  else if c = 'f' then some '\x0c'
  else if c = 'n' then some '\n'
  else if c = 'r' then some '\r'
  else if c = 't' then some '\t'
  else none

/-- Parse the body of a JSON string (the opening quote already consumed),
returning the decoded string and the remaining characters. -/
def pString : List Char → Option (String × List Char)
  | [] => none
  | '"' :: rest => some ("", rest)
  | '\\' :: 'u' :: a :: b :: c :: d :: rest =>
      match hexVal a, hexVal b, hexVal c, hexVal d with
      | some x1, some x2, some x3, some x4 =>
          (pString rest).map fun p =>
            (⟨Char.ofNat (((x1 * 16 + x2) * 16 + x3) * 16 + x4) :: p.1.data⟩, p.2)
      | _, _, _, _ => none
  | '\\' :: e :: rest =>
      match escChar e with
      | some ch => (pString rest).map fun p => (⟨ch :: p.1.data⟩, p.2)
      | none => none
  | c :: rest => (pString rest).map fun p => (⟨c :: p.1.data⟩, p.2)

/-- Take the longest prefix of decimal digits. -/
def takeDigits : List Char → List Char × List Char
  | [] => ([], [])
  | c :: rest =>
      if c.isDigit then
        let p := takeDigits rest
        (c :: p.1, p.2)
      else ([], c :: rest)

/-- Parse a JSON number literal, keeping its spelling. -/
def pNumber (cs : List Char) : Option (Json × List Char) :=
  let startNeg : List Char × List Char :=
    match cs with
    | '-' :: r => (['-'], r)
    | _ => ([], cs)
  let intPart := takeDigits startNeg.2
  if intPart.1.isEmpty then none
  else
    let afterInt := intPart.2
    let fracPart : Option (List Char × List Char) :=
      match afterInt with
      | '.' :: r =>
          let fd := takeDigits r
          if fd.1.isEmpty then none else some ('.' :: fd.1, fd.2)
      | _ => some ([], afterInt)
    match fracPart with
    | none => none
    | some fp =>
        let expPart : Option (List Char × List Char) :=
          match fp.2 with
          | 'e' :: r =>
              match r with
              | '+' :: r2 =>
                  let ed := takeDigits r2
                  if ed.1.isEmpty then none else some ('e' :: '+' :: ed.1, ed.2)
              | '-' :: r2 =>
                  let ed := takeDigits r2
                  if ed.1.isEmpty then none else some ('e' :: '-' :: ed.1, ed.2)
              | _ =>
                  let ed := takeDigits r
                  if ed.1.isEmpty then none else some ('e' :: ed.1, ed.2)
          | 'E' :: r =>
              match r with
              | '+' :: r2 =>
                  let ed := takeDigits r2
                  if ed.1.isEmpty then none else some ('E' :: '+' :: ed.1, ed.2)
              | '-' :: r2 =>
                  let ed := takeDigits r2
                  if ed.1.isEmpty then none else some ('E' :: '-' :: ed.1, ed.2)
              | _ =>
                  let ed := takeDigits r
                  if ed.1.isEmpty then none else some ('E' :: ed.1, ed.2)
          | _ => some ([], fp.2)
        match expPart with
        | none => none
        | some ep =>
            some (Json.num ⟨startNeg.1 ++ intPart.1 ++ fp.1 ++ ep.1⟩, ep.2)

mutual

/-- Parse one JSON value; `fuel` bounds the recursion depth. -/
def pVal : Nat → List Char → Option (Json × List Char)
  | 0, _ => none
  | fuel + 1, cs =>
      match skipWs cs with
      | 'n' :: 'u' :: 'l' :: 'l' :: rest => some (Json.null, rest)
      | 't' :: 'r' :: 'u' :: 'e' :: rest => some (Json.bool true, rest)
      | 'f' :: 'a' :: 'l' :: 's' :: 'e' :: rest => some (Json.bool false, rest)
      | '"' :: rest => (pString rest).map fun p => (Json.str p.1, p.2)
      | '[' :: rest =>
          match skipWs rest with
          | ']' :: rest2 => some (Json.arr [], rest2)
          | cs2 => (pElems fuel cs2).map fun p => (Json.arr p.1, p.2)
      | '\x7b' :: rest =>
          match skipWs rest with
          | '\x7d' :: rest2 => some (Json.obj [], rest2)
          | cs2 => (pFields fuel cs2).map fun p => (Json.obj p.1, p.2)
      | cs2 => pNumber cs2

/-- Parse the elements of a non-empty JSON array up to the closing bracket. -/
def pElems : Nat → List Char → Option (List Json × List Char)
  | 0, _ => none
  | fuel + 1, cs =>
      match pVal fuel cs with
      | none => none
      | some (v, rest) =>
          match skipWs rest with
          | ',' :: rest2 =>
              match pElems fuel rest2 with
              | none => none
              | some (vs, rest3) => some (v :: vs, rest3)
          | ']' :: rest2 => some ([v], rest2)
          | _ => none

/-- Parse the fields of a non-empty JSON object up to the closing brace. -/
def pFields : Nat → List Char → Option (List (String × Json) × List Char)
  | 0, _ => none
  | fuel + 1, cs =>
      match skipWs cs with
      | '"' :: rest =>
          match pString rest with
          | none => none
          | some (k, rest2) =>
              match skipWs rest2 with
              | ':' :: rest3 =>
                  match pVal fuel rest3 with
                  | none => none
                  | some (v, rest4) =>
                      match skipWs rest4 with
                      | ',' :: rest5 =>
                          match pFields fuel rest5 with
                          | none => none
                          | some (fs, rest6) => some ((k, v) :: fs, rest6)
                      | '\x7d' :: rest5 => some ([(k, v)], rest5)
                      | _ => none
              | _ => none
      | _ => none

end

/-- Parse a complete JSON document: one value with only whitespace after it. -/
def parseJson (s : String) : Option Json :=
  match pVal (2 * s.length + 2) s.data with
  | some (j, rest) => if (skipWs rest).isEmpty then some j else none
  | none => none

/-- Look up a key in a JSON object field list; on duplicates the last
occurrence wins, as in Python JSON decoding. -/
def jlookup (fields : List (String × Json)) (key : String) : Option Json :=
  ((fields.filter fun p => p.1 = key).getLast?).map Prod.snd

namespace TriageAgents

/-- The structured triage schema of src/server/agents/medical_triage_agent.py,
used by workflow.py: is_medical_emergency plus a free-text reason. -/
structure MedicalTriageResult where
  is_medical_emergency : Bool
  reason : String
deriving Repr, DecidableEq

/-- Validate a parsed JSON value against the two-field schema: the root must
be an object, each declared field present with the right type, extra fields
ignored. -/
def validate (j : Json) : Option MedicalTriageResult :=
  match j with
  | Json.obj fields =>
      match jlookup fields "is_medical_emergency", jlookup fields "reason" with
      | some (Json.bool e), some (Json.str r) => some ⟨e, r⟩
      | _, _ => none
  | _ => none

/-- MedicalTriageResult.model_validate_json for the two-field schema. -/
def model_validate_json (text : String) : Option MedicalTriageResult :=
  (parseJson text).bind validate

end TriageAgents

namespace TriageApi

/-- The structured triage schema of src/server/medical_triage_agent.py, used
by api.py and main.py: emergency and advice booleans plus a reason. -/
structure MedicalTriageResult where
  is_medical_emergency : Bool
  is_medical_advice : Bool
  reason : String
deriving Repr, DecidableEq

/-- Validate a parsed JSON value against the three-field schema. -/
def validate (j : Json) : Option MedicalTriageResult :=
  match j with
  | Json.obj fields =>
      match jlookup fields "is_medical_emergency", jlookup fields "is_medical_advice",
            jlookup fields "reason" with
      | some (Json.bool e), some (Json.bool a), some (Json.str r) => some ⟨e, a, r⟩
      | _, _, _ => none
  | _ => none

/-- MedicalTriageResult.model_validate_json for the three-field schema. -/
def model_validate_json (text : String) : Option MedicalTriageResult :=
  (parseJson text).bind validate

end TriageApi

/-- Chat roles from agent_framework. -/
inductive Role where
  | user : Role
  | assistant : Role
  | system : Role
  | tool : Role
deriving Repr, DecidableEq

/-- Message content items; TextContent carries plain text, reasoningContent
models TextReasoningContent, otherContent any non-text content object. -/
inductive Content where
  | text (t : String) : Content
  | reasoningContent (t : String) : Content
  | otherContent : Content
deriving Repr, DecidableEq

/-- A ChatMessage from agent_framework: role, content list and optional
author and message identifiers. -/
structure ChatMessage where
  role : Role
  contents : List Content
  author_name : Option String := none
  message_id : Option String := none
deriving Repr, DecidableEq

/-- The typed value slot of an AgentRunResponse.  The router checks it with
isinstance against the two-field MedicalTriageResult; any other attached
object is `otherValue`. -/
inductive TypedValue where
  | triage (r : TriageAgents.MedicalTriageResult) : TypedValue
  | otherValue : TypedValue
deriving Repr, DecidableEq

/-- An AgentRunResponse: the raw text, the optional typed value and the
message list (a Python None message list is the empty list, matching the
`or []` guards at every use site). -/
structure AgentRunResponse where
  text : String
  value : Option TypedValue := none
  messages : List ChatMessage := []
deriving Repr, DecidableEq

/-- An AgentExecutorResponse: the id of the executor that produced it, the
wrapped agent run response, and the optional merged conversation. -/
structure AgentExecutorResponse where
  executor_id : String
  agent_run_response : AgentRunResponse
  full_conversation : Option (List ChatMessage) := none
deriving Repr, DecidableEq

/-- A message flowing along a workflow edge: either an AgentExecutorResponse
or any other Python object (modelled by an opaque tag). -/
inductive WorkflowMessage where
  | response (r : AgentExecutorResponse) : WorkflowMessage
  | other (tag : String) : WorkflowMessage
deriving Repr, DecidableEq

/-- workflow.py `_condition_medical_emergency`: pass through non-responses,
otherwise decode the text with the two-field schema and route on the
emergency flag; any decode failure returns false. -/
def _condition_medical_emergency (message : WorkflowMessage) : Bool :=
  match message with
  | WorkflowMessage.other _ => true
  | WorkflowMessage.response m =>
      match TriageAgents.model_validate_json m.agent_run_response.text with
      | some detection => detection.is_medical_emergency
      | none => false

/-- The same control flow as `_condition_medical_emergency`, generic over the
decode function, used to state that the type-guard branch never consults the
decoder. -/
def conditionEmergencyGeneric (decode : String → Option TriageAgents.MedicalTriageResult)
    (message : WorkflowMessage) : Bool :=
  match message with
  | WorkflowMessage.other _ => true
  | WorkflowMessage.response m =>
      match decode m.agent_run_response.text with
      | some detection => detection.is_medical_emergency
      | none => false

/-- api.py / main.py `condition_medical_emergency`, over the three-field
schema. -/
def condition_medical_emergency (message : WorkflowMessage) : Bool :=
  match message with
  | WorkflowMessage.other _ => true
  | WorkflowMessage.response m =>
      match TriageApi.model_validate_json m.agent_run_response.text with
      | some detection => detection.is_medical_emergency
      | none => false

/-- api.py / main.py `condition_medical_guidance`, over the three-field
schema. -/
def condition_medical_guidance (message : WorkflowMessage) : Bool :=
  match message with
  | WorkflowMessage.other _ => true
  | WorkflowMessage.response m =>
      match TriageApi.model_validate_json m.agent_run_response.text with
      | some detection => detection.is_medical_advice
      | none => false

/-- The emergency edge condition of the api.py workflow (the lambda wrapping
condition_medical_emergency). -/
def api_edge_emergency (msg : WorkflowMessage) : Bool :=
  condition_medical_emergency msg

/-- The medical-guidance edge condition of the api.py and main.py workflows:
not an emergency and the triage flagged medical advice. -/
def api_edge_medical_guidance (msg : WorkflowMessage) : Bool :=
  !condition_medical_emergency msg && condition_medical_guidance msg

/-- The joint-surgery edge condition of the api.py and main.py workflows:
neither medical guidance nor an emergency. -/
def api_edge_joint_surgery (msg : WorkflowMessage) : Bool :=
  !condition_medical_guidance msg && !condition_medical_emergency msg

/-- workflow.py `_TRIAGE_EXECUTOR_ID`. -/
def _TRIAGE_EXECUTOR_ID : String := "medical_triage_agent_executor"

/-- workflow.py `_CARE_NAV_EXECUTOR_ID`. -/
def _CARE_NAV_EXECUTOR_ID : String := "care_navigator_agent_executor"

/-- One step of the for-loop at the top of `_final_response_router`: remember
the latest response from the triage executor and from the care navigator. -/
def routerStep (acc : Option AgentExecutorResponse × Option AgentExecutorResponse)
    (r : AgentExecutorResponse) :
    Option AgentExecutorResponse × Option AgentExecutorResponse :=
  if r.executor_id = _TRIAGE_EXECUTOR_ID then (some r, acc.2)
  else if r.executor_id = _CARE_NAV_EXECUTOR_ID then (acc.1, some r)
  else acc

/-- The for-loop of `_final_response_router` over the fan-in response list. -/
def routerScan (responses : List AgentExecutorResponse) :
    Option AgentExecutorResponse × Option AgentExecutorResponse :=
  responses.foldl routerStep (none, none)

/-- Python whitespace characters recognised by `str.strip` (the ASCII ones;
no text in this embedding carries other Unicode whitespace). -/
def pyWs (c : Char) : Bool :=
  c = ' ' ∨ c = '\t' ∨ c = '\n' ∨ c = '\r' ∨ c = '\x0b' ∨ c = '\x0c'

/-- Python `str.strip()`: drop leading and trailing whitespace. -/
def pyStrip (s : String) : String :=
  ⟨((s.data.dropWhile pyWs).reverse.dropWhile pyWs).reverse⟩

/-- Python `sep.join(parts)`. -/
def pyJoin (sep : String) : List String → String
  | [] => ""
  | [p] => p
  | p :: rest => p ++ sep ++ pyJoin sep rest

/-- Collect the stripped texts of the TextContent items of one message whose
raw text is non-empty (the inner loop of the two fallback passes). -/
def collectParts (m : ChatMessage) : List String :=
  m.contents.filterMap fun c =>
    match c with
    | Content.text t => if t ≠ "" then some (pyStrip t) else none
    | _ => none

/-- Join non-empty parts with blank lines and strip, as in
`"\n\n".join(filter(None, parts)).strip()`. -/
def joinParts (parts : List String) : String :=
  pyStrip (pyJoin "\n\n" (parts.filter fun p => p ≠ ""))

/-- The final fallback of the router: walk the merged conversation from the
newest message backwards and take the first assistant message with a
non-empty joined text.  The input list is already reversed. -/
def convFallback : List ChatMessage → String
  | [] => ""
  | m :: rest =>
      if m.role = Role.assistant then
        let candidate := joinParts (collectParts m)
        if candidate ≠ "" then candidate else convFallback rest
      else convFallback rest

/-- The care-navigator text extraction of `_final_response_router`: the
stripped response text, else assistant text from the response messages, else
the newest assistant reply of the merged conversation; yield it only when
non-empty. -/
def routerCareText (care : AgentExecutorResponse) : List String :=
  let t0 := pyStrip care.agent_run_response.text
  let t1 :=
    if t0 = "" then
      joinParts ((care.agent_run_response.messages.filter
        fun m => m.role = Role.assistant).flatMap collectParts)
    else t0
  let t2 :=
    if t1 = "" then
      match care.full_conversation with
      | some conv => if conv.isEmpty then "" else convFallback conv.reverse
      | none => ""
    else t1
  if t2 = "" then [] else [t2]

/-- The `triage_result` local of `_final_response_router`: take the typed
value when it is an attached MedicalTriageResult, else decode the response
text, with decode failure giving none. -/
def routerTriageResult (triage_response : AgentExecutorResponse) :
    Option TriageAgents.MedicalTriageResult :=
  match triage_response.agent_run_response.value with
  | some (TypedValue.triage r) => some r
  | _ => TriageAgents.model_validate_json triage_response.agent_run_response.text

/-- workflow.py `_final_response_router`, as the list of outputs it yields:
require both the triage and the care navigator response, take the typed
triage value when attached else decode the triage text, suppress the care
navigator reply on an emergency, and otherwise yield the extracted care
navigator text when non-empty. -/
def _final_response_router (responses : List AgentExecutorResponse) : List String :=
  match routerScan responses with
  | (some triage_response, some care_nav_response) =>
      match routerTriageResult triage_response with
      | some r =>
          if r.is_medical_emergency then [] else routerCareText care_nav_response
      | none => routerCareText care_nav_response
  | _ => []

/-- The literal string yielded by workflow.py `_handle_emergency`. -/
def emergencyYield : String := "Yo, you should call 911 or go to the emergency room!"

/-- One run of the workflow.py fan-out graph, given the two agent responses.
The entry dispatcher fans the request out to the triage and care navigator
executors; the framework stamps their responses with the executor ids fixed
at build time.  The emergency edge fires on the triage response as it
settles, and the fan-in router fires once both responses are in, receiving
them in stable producer order. -/
def run_fanout_workflow (triageRun careRun : AgentRunResponse)
    (triageConv careConv : Option (List ChatMessage)) : List String :=
  let triage : AgentExecutorResponse := ⟨_TRIAGE_EXECUTOR_ID, triageRun, triageConv⟩
  let care : AgentExecutorResponse := ⟨_CARE_NAV_EXECUTOR_ID, careRun, careConv⟩
  (if _condition_medical_emergency (WorkflowMessage.response triage)
   then [emergencyYield] else [])
  ++ _final_response_router [triage, care]

/-- A workflow output as seen by the adapter: an AgentExecutorResponse or
any other yielded value, modelled by its string form. -/
inductive WfOutput where
  | response (r : AgentExecutorResponse) : WfOutput
  | str (s : String) : WfOutput
deriving Repr, DecidableEq

/-- Python `str(output)`.  For a string output this is the string itself; the
object form of an AgentExecutorResponse is framework-defined and modelled by
a fixed spelling that no claim inspects. -/
def pyStr : WfOutput → String
  | WfOutput.str s => s
  | WfOutput.response r =>
      "AgentExecutorResponse(executor_id=" ++ r.executor_id ++ ")"

/-- A streamed AgentRunResponseUpdate: the initial reasoning chunk, an update
copied from a response message, or a plain assistant text update. -/
inductive Update where
  | reasoningChunk (t : String) : Update
  | fromMessage (role : Role) (contents : List Content)
      (author_name message_id : Option String) : Update
  | assistantText (t : String) : Update
deriving Repr, DecidableEq

/-- WorkflowAgentAdapter._build_updates: replay the response messages when
present, else emit the response text when non-empty, else fall through to
`str(output)` as a plain assistant update. -/
def _build_updates (output : WfOutput) : List Update :=
  match output with
  | WfOutput.response r =>
      let agent_response := r.agent_run_response
      if ¬ agent_response.messages.isEmpty then
        agent_response.messages.map fun m =>
          Update.fromMessage m.role m.contents m.author_name m.message_id
      else if agent_response.text ≠ "" then
        [Update.assistantText agent_response.text]
      else
        [Update.assistantText (pyStr output)]
  | WfOutput.str _ => [Update.assistantText (pyStr output)]

/-- The update stream of WorkflowAgentAdapter.run_stream after the inbound
messages normalised to a non-empty list: an initial reasoning chunk, then,
if the finished run produced no outputs, a single empty assistant update,
else the updates built from the last output only. -/
def run_stream_updates (outputs : List WfOutput) : List Update :=
  Update.reasoningChunk "Analyzing input..." ::
    (match outputs.getLast? with
     | none => [Update.assistantText ""]
     | some final_output => _build_updates final_output)

/-- The for-loop of the router never records a triage response when no input
carries the triage executor id. -/
theorem routerScan_foldl_fst (responses : List AgentExecutorResponse)
    (acc : Option AgentExecutorResponse × Option AgentExecutorResponse)
    (h : ∀ r ∈ responses, r.executor_id ≠ _TRIAGE_EXECUTOR_ID) :
    (List.foldl routerStep acc responses).1 = acc.1 := by
  induction responses generalizing acc with
  | nil => rfl
  | cons x xs ih =>
      have hx : x.executor_id ≠ _TRIAGE_EXECUTOR_ID := h x (List.mem_cons_self x xs)
      have hxs : ∀ r ∈ xs, r.executor_id ≠ _TRIAGE_EXECUTOR_ID :=
        fun r hr => h r (List.mem_cons_of_mem x hr)
      rw [List.foldl_cons, ih _ hxs]
      unfold routerStep
      rw [if_neg hx]
      split <;> rfl

/-- The for-loop of the router never records a care navigator response when
no input carries the care navigator executor id. -/
theorem routerScan_foldl_snd (responses : List AgentExecutorResponse)
    (acc : Option AgentExecutorResponse × Option AgentExecutorResponse)
    (h : ∀ r ∈ responses, r.executor_id ≠ _CARE_NAV_EXECUTOR_ID) :
    (List.foldl routerStep acc responses).2 = acc.2 := by
  induction responses generalizing acc with
  | nil => rfl
  | cons x xs ih =>
      have hx : x.executor_id ≠ _CARE_NAV_EXECUTOR_ID := h x (List.mem_cons_self x xs)
      have hxs : ∀ r ∈ xs, r.executor_id ≠ _CARE_NAV_EXECUTOR_ID :=
        fun r hr => h r (List.mem_cons_of_mem x hr)
      rw [List.foldl_cons, ih _ hxs]
      unfold routerStep
      split <;> rfl

/-- A guarded singleton yield has at most one element. -/
theorem ite_singleton_length_le (t : String) :
    (if t = "" then ([] : List String) else [t]).length ≤ 1 := by
  split <;> simp

/-- The care navigator extraction yields at most one output. -/
theorem routerCareText_length_le (care : AgentExecutorResponse) :
    (routerCareText care).length ≤ 1 := by
  unfold routerCareText
  exact ite_singleton_length_le _

/-- The final response router yields at most one output on any input. -/
theorem final_router_length_le (responses : List AgentExecutorResponse) :
    (_final_response_router responses).length ≤ 1 := by
  unfold _final_response_router
  split
  · split
    · split
      · simp
      · exact routerCareText_length_le _
    · exact routerCareText_length_le _
  · simp

/-- C1: for every AgentExecutorResponse whose text fails to decode as the
expected MedicalTriageResult schema, the emergency edge predicate returns
false, in both the workflow.py and the api.py variant. -/
theorem fail_closed_on_undecodable_response (m : AgentExecutorResponse)
    (h2 : TriageAgents.model_validate_json m.agent_run_response.text = none)
    (h3 : TriageApi.model_validate_json m.agent_run_response.text = none) :
    _condition_medical_emergency (WorkflowMessage.response m) = false ∧
    condition_medical_emergency (WorkflowMessage.response m) = false := by
  constructor
  · simp [_condition_medical_emergency, h2]
  · simp [condition_medical_emergency, h3]

/-- C1 witness: a response whose text is free text, not JSON. -/
theorem fail_closed_on_undecodable_response_witness :
    _condition_medical_emergency (WorkflowMessage.response
      ⟨"medical_triage_agent_executor", ⟨"I am not json at all", none, []⟩, none⟩) = false ∧
    condition_medical_emergency (WorkflowMessage.response
      ⟨"medical_triage_agent_executor", ⟨"I am not json at all", none, []⟩, none⟩) = false :=
  fail_closed_on_undecodable_response _ (by decide) (by decide)

/-- C2 counterexample: the composed medical-guidance and joint-surgery edge
conditions of api.py and main.py evaluate to false, not true, on a message
that is not an AgentExecutorResponse. -/
theorem pass_through_counterexample :
    api_edge_medical_guidance (WorkflowMessage.other "probe") = false ∧
    api_edge_joint_surgery (WorkflowMessage.other "probe") = false := by
  decide

/-- C2 (amended): each direct condition function returns true on a
non-AgentExecutorResponse message, and so does the emergency edge lambda;
but the composed medical-guidance and joint-surgery edge lambdas, which
negate condition functions, return false on such a message. -/
theorem pass_through_amended (s : String) :
    _condition_medical_emergency (WorkflowMessage.other s) = true ∧
    condition_medical_emergency (WorkflowMessage.other s) = true ∧
    condition_medical_guidance (WorkflowMessage.other s) = true ∧
    api_edge_emergency (WorkflowMessage.other s) = true ∧
    api_edge_medical_guidance (WorkflowMessage.other s) = false ∧
    api_edge_joint_surgery (WorkflowMessage.other s) = false :=
  ⟨rfl, rfl, rfl, rfl, rfl, rfl⟩

/-- C3: the type guard is applied first and alone decides non-response
inputs, for any decode function whatsoever; only on an AgentExecutorResponse
is the text decoded, and only there can a decode failure yield false. -/
theorem emergency_condition_check_order :
    (∀ (decode : String → Option TriageAgents.MedicalTriageResult) (s : String),
        conditionEmergencyGeneric decode (WorkflowMessage.other s) = true) ∧
    (∀ m, _condition_medical_emergency m =
        conditionEmergencyGeneric TriageAgents.model_validate_json m) ∧
    (∀ r : AgentExecutorResponse,
        _condition_medical_emergency (WorkflowMessage.response r) =
          match TriageAgents.model_validate_json r.agent_run_response.text with
          | some detection => detection.is_medical_emergency
          | none => false) := by
  refine ⟨fun _ _ => rfl, fun m => ?_, fun r => rfl⟩
  cases m <;> rfl

/-- C4: when the triage text decodes to an emergency (and the typed value
slot, if filled, carries that same result), one run of the fan-out workflow
yields exactly the literal emergency string, and the final response router
yields nothing, whatever the care navigator produced. -/
theorem emergency_run_yields_only_emergency_string
    (triageRun careRun : AgentRunResponse)
    (triageConv careConv : Option (List ChatMessage))
    (r : TriageAgents.MedicalTriageResult)
    (hdec : TriageAgents.model_validate_json triageRun.text = some r)
    (hem : r.is_medical_emergency = true)
    (hval : triageRun.value = none ∨ triageRun.value = some (TypedValue.triage r)) :
    run_fanout_workflow triageRun careRun triageConv careConv = [emergencyYield] ∧
    _final_response_router [⟨_TRIAGE_EXECUTOR_ID, triageRun, triageConv⟩,
      ⟨_CARE_NAV_EXECUTOR_ID, careRun, careConv⟩] = [] := by
  have hscan : routerScan [(⟨_TRIAGE_EXECUTOR_ID, triageRun, triageConv⟩ : AgentExecutorResponse),
      ⟨_CARE_NAV_EXECUTOR_ID, careRun, careConv⟩] =
      (some ⟨_TRIAGE_EXECUTOR_ID, triageRun, triageConv⟩,
       some ⟨_CARE_NAV_EXECUTOR_ID, careRun, careConv⟩) := by
    simp [routerScan, routerStep, _TRIAGE_EXECUTOR_ID, _CARE_NAV_EXECUTOR_ID]
  have htr : routerTriageResult ⟨_TRIAGE_EXECUTOR_ID, triageRun, triageConv⟩ = some r := by
    rcases hval with hv | hv <;> simp [routerTriageResult, hv, hdec]
  have hrouter : _final_response_router [⟨_TRIAGE_EXECUTOR_ID, triageRun, triageConv⟩,
      ⟨_CARE_NAV_EXECUTOR_ID, careRun, careConv⟩] = [] := by
    unfold _final_response_router
    rw [hscan]
    simp [htr, hem]
  refine ⟨?_, hrouter⟩
  simp only [run_fanout_workflow]
  rw [hrouter]
  simp [_condition_medical_emergency, hdec, hem]

/-- C4 witness: a triage text flagged as an emergency, with a non-empty care
navigator reply that is suppressed. -/
theorem emergency_run_yields_only_emergency_string_witness :
    run_fanout_workflow
      ⟨"\x7b\"is_medical_emergency\": true, \"reason\": \"chest pain\"\x7d", none, []⟩
      ⟨"see a doctor", none, []⟩ none none = [emergencyYield] ∧
    _final_response_router [⟨_TRIAGE_EXECUTOR_ID,
        ⟨"\x7b\"is_medical_emergency\": true, \"reason\": \"chest pain\"\x7d", none, []⟩, none⟩,
      ⟨_CARE_NAV_EXECUTOR_ID, ⟨"see a doctor", none, []⟩, none⟩] = [] :=
  emergency_run_yields_only_emergency_string _ _ _ _ ⟨true, "chest pain"⟩
    (by decide) rfl (Or.inl rfl)

/-- C5: when the triage text is not decodable and no typed value is attached,
the emergency edge predicate is false and one run of the fan-out workflow
yields exactly the stripped care navigator text. -/
theorem undecodable_triage_passes_to_care_navigator
    (triageRun careRun : AgentRunResponse)
    (triageConv careConv : Option (List ChatMessage))
    (hdec : TriageAgents.model_validate_json triageRun.text = none)
    (hval : triageRun.value = none)
    (hcare : pyStrip careRun.text ≠ "") :
    _condition_medical_emergency (WorkflowMessage.response
      ⟨_TRIAGE_EXECUTOR_ID, triageRun, triageConv⟩) = false ∧
    run_fanout_workflow triageRun careRun triageConv careConv = [pyStrip careRun.text] := by
  have hcond : _condition_medical_emergency (WorkflowMessage.response
      ⟨_TRIAGE_EXECUTOR_ID, triageRun, triageConv⟩) = false := by
    simp [_condition_medical_emergency, hdec]
  have hscan : routerScan [(⟨_TRIAGE_EXECUTOR_ID, triageRun, triageConv⟩ : AgentExecutorResponse),
      ⟨_CARE_NAV_EXECUTOR_ID, careRun, careConv⟩] =
      (some ⟨_TRIAGE_EXECUTOR_ID, triageRun, triageConv⟩,
       some ⟨_CARE_NAV_EXECUTOR_ID, careRun, careConv⟩) := by
    simp [routerScan, routerStep, _TRIAGE_EXECUTOR_ID, _CARE_NAV_EXECUTOR_ID]
  have htr : routerTriageResult ⟨_TRIAGE_EXECUTOR_ID, triageRun, triageConv⟩ = none := by
    simp [routerTriageResult, hval, hdec]
  have hcaretext : routerCareText ⟨_CARE_NAV_EXECUTOR_ID, careRun, careConv⟩ =
      [pyStrip careRun.text] := by
    unfold routerCareText
    simp [hcare]
  refine ⟨hcond, ?_⟩
  simp only [run_fanout_workflow]
  rw [hcond]
  unfold _final_response_router
  rw [hscan]
  simp [htr, hcaretext]

/-- C5 witness: a free-text triage reply and a care navigator reply with
surrounding whitespace. -/
theorem undecodable_triage_passes_to_care_navigator_witness :
    _condition_medical_emergency (WorkflowMessage.response
      ⟨_TRIAGE_EXECUTOR_ID, ⟨"plain advice, no json", none, []⟩, none⟩) = false ∧
    run_fanout_workflow ⟨"plain advice, no json", none, []⟩
      ⟨" please rest and hydrate ", none, []⟩ none none = ["please rest and hydrate"] := by
  have h := undecodable_triage_passes_to_care_navigator
    ⟨"plain advice, no json", none, []⟩ ⟨" please rest and hydrate ", none, []⟩
    none none (by decide) rfl (by decide)
  exact h

/-- C6: the fan-in router yields at most one output on any response list, and
yields nothing whenever the list lacks a triage executor response or lacks a
care navigator executor response. -/
theorem join_fires_only_with_full_predecessor_set
    (responses : List AgentExecutorResponse) :
    (_final_response_router responses).length ≤ 1 ∧
    (((∀ r ∈ responses, r.executor_id ≠ _TRIAGE_EXECUTOR_ID) ∨
      (∀ r ∈ responses, r.executor_id ≠ _CARE_NAV_EXECUTOR_ID)) →
      _final_response_router responses = []) := by
  refine ⟨final_router_length_le responses, fun h => ?_⟩
  unfold _final_response_router
  rcases h with h | h
  · have hfst : (routerScan responses).1 = none :=
      routerScan_foldl_fst responses (none, none) h
    rcases hsc : routerScan responses with ⟨t, c⟩
    rw [hsc] at hfst
    simp only at hfst
    subst hfst
    cases c <;> rfl
  · have hsnd : (routerScan responses).2 = none :=
      routerScan_foldl_snd responses (none, none) h
    rcases hsc : routerScan responses with ⟨t, c⟩
    rw [hsc] at hsnd
    simp only at hsnd
    subst hsnd
    cases t <;> rfl

/-- C6 witness: a response list with only the triage executor response. -/
theorem join_fires_only_with_full_predecessor_set_witness :
    _final_response_router [⟨_TRIAGE_EXECUTOR_ID,
      ⟨"\x7b\"is_medical_emergency\": false, \"reason\": \"ok\"\x7d", none, []⟩, none⟩] = [] :=
  (join_fires_only_with_full_predecessor_set _).2 (Or.inr (by decide))

/-- C7 counterexample: a run that finishes with no outputs is surfaced by
run_stream as the initial reasoning chunk followed by one ordinary empty
assistant text update, and that update stream is identical to the one of a
run that yielded the empty string; no RunIncomplete or timeout signal
exists in the update type. -/
theorem run_incomplete_counterexample :
    run_stream_updates [] =
      [Update.reasoningChunk "Analyzing input...", Update.assistantText ""] ∧
    run_stream_updates [] = run_stream_updates [WfOutput.str ""] := by
  decide

/-- C7 (amended): a run that completes with an empty output list is reported
to the caller as one ordinary empty assistant text update after the initial
reasoning chunk, indistinguishable from a run that yielded an empty string;
the adapter defines no distinguishable RunIncomplete or timeout failure. -/
theorem run_incomplete_amended :
    run_stream_updates [] =
      [Update.reasoningChunk "Analyzing input...", Update.assistantText ""] ∧
    run_stream_updates [WfOutput.str ""] =
      [Update.reasoningChunk "Analyzing input...", Update.assistantText ""] :=
  ⟨rfl, rfl⟩

/-- C8: decoding ignores unknown extra fields: whenever the response text
parses as a JSON object that binds is_medical_emergency to a boolean and
reason to a string, whatever other fields it carries, the two-field schema
decodes it and the emergency edge predicate returns exactly that boolean. -/
theorem decode_ignores_extra_fields (m : AgentExecutorResponse)
    (fields : List (String × Json)) (b : Bool) (s : String)
    (hp : parseJson m.agent_run_response.text = some (Json.obj fields))
    (he : jlookup fields "is_medical_emergency" = some (Json.bool b))
    (hr : jlookup fields "reason" = some (Json.str s)) :
    TriageAgents.model_validate_json m.agent_run_response.text = some ⟨b, s⟩ ∧
    _condition_medical_emergency (WorkflowMessage.response m) = b := by
  have hdec : TriageAgents.model_validate_json m.agent_run_response.text = some ⟨b, s⟩ := by
    unfold TriageAgents.model_validate_json
    rw [hp]
    simp [TriageAgents.validate, he, hr]
  exact ⟨hdec, by simp [_condition_medical_emergency, hdec]⟩

/-- C8 witness: a JSON text with the extra is_medical_advice field, which the
two-field schema ignores. -/
theorem decode_ignores_extra_fields_witness :
    TriageAgents.model_validate_json
      "\x7b\"is_medical_emergency\": false, \"is_medical_advice\": true, \"reason\": \"ok\"\x7d"
      = some ⟨false, "ok"⟩ ∧
    _condition_medical_emergency (WorkflowMessage.response
      ⟨"medical_triage_agent_executor",
       ⟨"\x7b\"is_medical_emergency\": false, \"is_medical_advice\": true, \"reason\": \"ok\"\x7d",
        none, []⟩, none⟩) = false :=
  decode_ignores_extra_fields
    ⟨"medical_triage_agent_executor",
     ⟨"\x7b\"is_medical_emergency\": false, \"is_medical_advice\": true, \"reason\": \"ok\"\x7d",
      none, []⟩, none⟩
    [("is_medical_emergency", Json.bool false), ("is_medical_advice", Json.bool true),
     ("reason", Json.str "ok")]
    false "ok" rfl rfl rfl

/-- C9: in the api.py three-branch graph, for every message exactly one of
the emergency, medical-guidance and joint-surgery edge conditions holds, and
an undecodable triage response takes the joint-surgery branch. -/
theorem api_conditions_partition (m : WorkflowMessage) :
    ((api_edge_emergency m).toNat + (api_edge_medical_guidance m).toNat +
      (api_edge_joint_surgery m).toNat = 1) ∧
    (∀ r : AgentExecutorResponse, m = WorkflowMessage.response r →
      TriageApi.model_validate_json r.agent_run_response.text = none →
      api_edge_joint_surgery m = true) := by
  constructor
  · cases m with
    | other s => rfl
    | response r =>
        simp only [api_edge_emergency, api_edge_medical_guidance, api_edge_joint_surgery]
        cases h : TriageApi.model_validate_json r.agent_run_response.text with
        | none =>
            simp [condition_medical_emergency, condition_medical_guidance, h]
        | some d =>
            cases he : d.is_medical_emergency <;> cases ha : d.is_medical_advice <;>
              simp [condition_medical_emergency, condition_medical_guidance, h, he, ha]
  · rintro r rfl h
    simp [api_edge_joint_surgery, condition_medical_emergency,
      condition_medical_guidance, h]

/-- C9 witness: a triage response whose text is undecodable routes to the
joint-surgery branch. -/
theorem api_conditions_partition_witness :
    api_edge_joint_surgery (WorkflowMessage.response
      ⟨"medical_triage_agent_executor", ⟨"total nonsense", none, []⟩, none⟩) = true :=
  (api_conditions_partition (WorkflowMessage.response
      ⟨"medical_triage_agent_executor", ⟨"total nonsense", none, []⟩, none⟩)).2
    ⟨"medical_triage_agent_executor", ⟨"total nonsense", none, []⟩, none⟩
    rfl (by decide)

/-- C10: run_stream exposes only the last workflow output: the updates after
the reasoning chunk are built from the final output alone, with every
earlier output dropped, and an empty output list produces exactly one empty
assistant text update. -/
theorem adapter_exposes_last_output_only :
    (∀ (earlier : List WfOutput) (final_output : WfOutput),
        run_stream_updates (earlier ++ [final_output]) =
          Update.reasoningChunk "Analyzing input..." :: _build_updates final_output) ∧
    run_stream_updates [] =
      [Update.reasoningChunk "Analyzing input...", Update.assistantText ""] := by
  constructor
  · intro earlier final_output
    unfold run_stream_updates
    rw [List.getLast?_concat]
  · rfl
